import Mathlib

/-!
Shallow embedding of the `cloudflare-worker-email-forwarding` email worker.

The repository contains two snapshots of the forwarding engine:

* the failover variant (`src/unnamed/part_002`), whose whole-spec operation is
  `DEFAULTS.forward`, classifies delivery failures by exact match against the
  unverified-destination message, rethrows the single underlying error for a
  one-group/one-address spec and otherwise throws an `OverallFailureError`
  whenever some group failed with a non-unverified error;

* the multi-destination variant (`src/worker.js`), whose whole-spec operation
  is `DEFAULTS.forwardToMultiDestination`, classifies failures by matching a
  recoverable-error pattern, throws a `RecoverableForwardError` exactly when
  forwarding was unsuccessful and every group either succeeded or had a
  recoverable error, and otherwise returns the overall success boolean.

JavaScript strings are modelled as `List Char` so that every operation is a
structurally recursive function the kernel can evaluate.  The configurable
format separators are single characters, as in the shipped defaults.  The
regular-expression based checks (`isValidEmailAddress`, the recoverable-error
pattern) are modelled as boolean-valued parameters, mirroring the source where
both are injectable via the environment/configuration object.
-/

/-- JavaScript strings, modelled as their list of characters. -/
abbrev JSString := List Char

/-- Conversion from Lean string literals to the model. -/
def jstr (s : String) : JSString := s.data

/-- `text.split(sep)` for a single-character separator, as in
`String.prototype.split`: the result is non-empty and rejoining with the
separator gives back the input. -/
def splitOnChar (sep : Char) : JSString → List JSString
  | [] => [[]]
  | c :: cs =>
    match splitOnChar sep cs with
    | [] => [[c]]
    | g :: gs => if c = sep then [] :: g :: gs else (c :: g) :: gs

/-- `String.prototype.trim`. -/
def trimList (l : JSString) : JSString :=
  ((l.dropWhile Char.isWhitespace).reverse.dropWhile Char.isWhitespace).reverse

/-- The `removeWhitespace` helper patched onto `String.prototype` in the
failover variant: `this.replace(/\s+/g, '')`. -/
def removeWhitespaceList (l : JSString) : JSString :=
  l.filter (fun c => !c.isWhitespace)

/-- `String.prototype.toLowerCase` (ASCII, as used by the worker). -/
def toLowerList (l : JSString) : JSString := l.map Char.toLower

/-- `base.startsWith(sep)` for a single-character prefix. -/
def startsWithChar (sep : Char) : JSString → Bool
  | [] => false
  | c :: _ => c = sep

/-- `FIXED.startsWithNonAlphanumericRegExp` (`/^[^A-Z0-9]/i`): matches
exactly when the string is non-empty and its first character is neither a
letter nor a digit. -/
def startsWithNonAlphanumeric : JSString → Bool
  | [] => false
  | c :: _ => !(c.isAlpha || c.isDigit)

/-- `FIXED.prepend` applied with the two conditions used by the destination
validators: prepend the message user when the candidate starts with the
local-part separator or with `'@'`. -/
def prependUserIfLocalOrAt (messageUser : JSString) (formatLocalPartSeparator : Char)
    (base : JSString) : JSString :=
  if startsWithChar formatLocalPartSeparator base then messageUser ++ base
  else if startsWithChar '@' base then messageUser ++ base
  else base

/-- `FIXED.prepend` applied with `FIXED.startsWithNonAlphanumericRegExp`:
prepend the message's local part to a reject reason that starts with a
non-alphanumeric character. -/
def prependLocalPartIfNonAlphanumeric (messageLocalPart reason : JSString) : JSString :=
  if startsWithNonAlphanumeric reason then messageLocalPart ++ reason else reason

/-- An error thrown by the external delivery primitive `message.forward`.
The `id` field models the identity of the JavaScript error object, so that
"rethrown unchanged" is expressible as equality. -/
structure JsError where
  id : Nat
  message : JSString
deriving DecidableEq, Repr

/-- The external delivery primitive: one attempt either resolves or throws. -/
abbrev Deliver := JSString → Except JsError Unit

instance {ε α : Type} [DecidableEq ε] [DecidableEq α] : DecidableEq (Except ε α)
  | .ok a, .ok b =>
    if h : a = b then isTrue (by rw [h]) else isFalse (by intro he; cases he; exact h rfl)
  | .ok _, .error _ => isFalse (by intro h; cases h)
  | .error _, .ok _ => isFalse (by intro h; cases h)
  | .error e, .error f =>
    if h : e = f then isTrue (by rw [h]) else isFalse (by intro he; cases he; exact h rfl)

namespace WorkerJS

/-! ### The multi-destination engine of `src/worker.js` -/

/-- Result accumulated by `forwardToRedundantDestination` for one redundant
destination (one group of simple addresses tried sequentially).  `attempted`
additionally records, in order, every address on which the delivery primitive
was invoked. -/
structure RedundantDestinationResult where
  wasSuccessful : Bool
  hadRecoverableError : Bool
  successfulDestination : Option JSString
  errorMessages : List JSString
  errors : List JsError
  attempted : List JSString
deriving DecidableEq, Repr

/-- The `RecoverableForwardError` thrown by `forwardToMultiDestination`. -/
structure RecoverableForwardError where
  errors : List JsError
deriving DecidableEq, Repr

/-- `DEFAULTS.forwardToRedundantDestination` (`src/worker.js` 176-224):
attempt each simple destination sequentially, stopping at the first success;
a caught error is recorded and marks the group as having had a recoverable
error when its message matches the configured recoverable pattern. -/
def forwardToRedundantDestination (deliver : Deliver) (isRecoverable : JSString → Bool) :
    List JSString → RedundantDestinationResult
  | [] =>
    { wasSuccessful := false, hadRecoverableError := false, successfulDestination := none
      errorMessages := [], errors := [], attempted := [] }
  | d :: rest =>
    match deliver d with
    | .ok _ =>
      { wasSuccessful := true, hadRecoverableError := false, successfulDestination := some d
        errorMessages := [], errors := [], attempted := [d] }
    | .error e =>
      let r := forwardToRedundantDestination deliver isRecoverable rest
      { wasSuccessful := r.wasSuccessful
        hadRecoverableError := isRecoverable e.message || r.hadRecoverableError
        successfulDestination := r.successfulDestination
        errorMessages := e.message :: r.errorMessages
        errors := e :: r.errors
        attempted := d :: r.attempted }

/-- The per-group results of one `forwardToMultiDestination` call. -/
def multiResults (deliver : Deliver) (isRecoverable : JSString → Bool)
    (multiDestination : List (List JSString)) : List RedundantDestinationResult :=
  multiDestination.map (forwardToRedundantDestination deliver isRecoverable)

/-- The `successfulDestinations` computed by `forwardToMultiDestination`
(`src/worker.js` 261-262): the successful address of every group that had
one. -/
def successfulDestinations (deliver : Deliver) (isRecoverable : JSString → Bool)
    (multiDestination : List (List JSString)) : List JSString :=
  (multiResults deliver isRecoverable multiDestination).filterMap
    (fun r => r.successfulDestination)

/-- All addresses on which the delivery primitive was invoked during one
`forwardToMultiDestination` call. -/
def multiAttempted (deliver : Deliver) (isRecoverable : JSString → Bool)
    (multiDestination : List (List JSString)) : List JSString :=
  ((multiResults deliver isRecoverable multiDestination).map (fun r => r.attempted)).flatten

/-- `DEFAULTS.forwardToMultiDestination` (`src/worker.js` 246-284): forwards
to every redundant destination, throws `RecoverableForwardError` when overall
forwarding was unsuccessful while every group either succeeded or had a
recoverable error, and otherwise returns whether every group succeeded and at
least one group existed. -/
def forwardToMultiDestination (deliver : Deliver) (isRecoverable : JSString → Bool)
    (multiDestination : List (List JSString)) : Except RecoverableForwardError Bool :=
  let results := multiResults deliver isRecoverable multiDestination
  let wasSuccessful := decide (0 < multiDestination.length)
    && results.all (fun r => r.wasSuccessful)
  let allRedundantDestinationsWereSuccessfulOrHadARecoverableError :=
    decide (0 < multiDestination.length)
    && results.all (fun r => r.wasSuccessful || r.hadRecoverableError)
  let errors := (results.map (fun r => r.errors)).flatten
  if !wasSuccessful && allRedundantDestinationsWereSuccessfulOrHadARecoverableError then
    .error { errors := errors }
  else
    .ok wasSuccessful

end WorkerJS

namespace FailoverVariant

/-! ### The failover engine of `src/unnamed/part_002` -/

/-- The `FailoverDestinationResult` of one group, with the loop state fields.
`attempted` additionally records every address on which the delivery
primitive was invoked. -/
structure FailoverDestinationResult where
  succeeded : Bool
  successfulDestination : Option JSString
  unverifiedDestinationsCount : Nat
  errorMessages : List JSString
  errors : List JsError
  attempted : List JSString
deriving DecidableEq, Repr

/-- The sequential attempt loop of `DEFAULTS.forwardFailoverDestination`
(`src/unnamed/part_002` 183-214), before the final
`succeeded = succeeded || errors.length === 0` adjustment.  An error whose
message equals the unverified-destination message only bumps the unverified
counters; any other error is collected in `errors`. -/
def forwardFailoverDestinationLoop (deliver : Deliver) (unverifiedMessage : JSString) :
    List JSString → FailoverDestinationResult
  | [] =>
    { succeeded := false, successfulDestination := none, unverifiedDestinationsCount := 0
      errorMessages := [], errors := [], attempted := [] }
  | d :: rest =>
    match deliver d with
    | .ok _ =>
      { succeeded := true, successfulDestination := some d, unverifiedDestinationsCount := 0
        errorMessages := [], errors := [], attempted := [d] }
    | .error e =>
      let r := forwardFailoverDestinationLoop deliver unverifiedMessage rest
      if e.message = unverifiedMessage then
        { succeeded := r.succeeded, successfulDestination := r.successfulDestination
          unverifiedDestinationsCount := r.unverifiedDestinationsCount + 1
          errorMessages := r.errorMessages, errors := r.errors, attempted := d :: r.attempted }
      else
        { succeeded := r.succeeded, successfulDestination := r.successfulDestination
          unverifiedDestinationsCount := r.unverifiedDestinationsCount
          errorMessages := e.message :: r.errorMessages, errors := e :: r.errors
          attempted := d :: r.attempted }

/-- `DEFAULTS.forwardFailoverDestination` (`src/unnamed/part_002` 183-225):
the loop above followed by `succeeded = succeeded || errors.length === 0`;
when the loop ran to completion `failoverDestination.at(s)` is `undefined`,
so `successfulDestination` stays as the break address or `none`. -/
def forwardFailoverDestination (deliver : Deliver) (unverifiedMessage : JSString)
    (failoverDestination : List JSString) : FailoverDestinationResult :=
  let st := forwardFailoverDestinationLoop deliver unverifiedMessage failoverDestination
  { st with succeeded := st.succeeded || st.errors.isEmpty }

/-- The exception thrown by `DEFAULTS.forward`: either the single underlying
error rethrown for a one-group/one-address spec (`throw errors.at(0)`, which
is `undefined` when there is no error), or the aggregate
`OverallFailureError` carrying all collected errors. -/
inductive ForwardThrow where
  | original (e : Option JsError)
  | overallFailure (errors : List JsError)
deriving DecidableEq, Repr

/-- The per-group results of one `forward` call. -/
def forwardResults (deliver : Deliver) (unverifiedMessage : JSString)
    (failoverDestinations : List (List JSString)) : List FailoverDestinationResult :=
  failoverDestinations.map (forwardFailoverDestination deliver unverifiedMessage)

/-- All addresses on which the delivery primitive was invoked during one
`forward` call. -/
def forwardAttempted (deliver : Deliver) (unverifiedMessage : JSString)
    (failoverDestinations : List (List JSString)) : List JSString :=
  ((forwardResults deliver unverifiedMessage failoverDestinations).map
    (fun r => r.attempted)).flatten

/-- `DEFAULTS.forward` (`src/unnamed/part_002` 234-262): forwards to every
failover destination; when some group neither delivered nor acceptably failed
it throws, rethrowing the single underlying error for a one-group/one-address
spec and an `OverallFailureError` otherwise; on success it returns the list
of successful destinations. -/
def forward (deliver : Deliver) (unverifiedMessage : JSString)
    (failoverDestinations : List (List JSString)) : Except ForwardThrow (List JSString) :=
  let results := forwardResults deliver unverifiedMessage failoverDestinations
  let succeeded := results.all (fun r => r.succeeded)
  let successfulDestinations := results.filterMap (fun r => r.successfulDestination)
  let errors := (results.map (fun r => r.errors)).flatten
  if !succeeded then
    if failoverDestinations.length = 1 && (failoverDestinations.headD []).length = 1 then
      .error (.original errors.head?)
    else
      .error (.overallFailure errors)
  else
    .ok successfulDestinations

end FailoverVariant

/-! ### Fixed message configuration and concrete delivery scenarios -/

/-- `DEFAULTS.UNVERIFIED_DESTINATION_ERROR_MESSAGE` of the failover variant. -/
def UNVERIFIED_DESTINATION_ERROR_MESSAGE : JSString :=
  jstr "destination address not verified"

/-- `FIXED.RECOVERABLE_FORWARD_IMPLEMENTATION_ERROR_MESSAGE_1` of
`src/worker.js`. -/
def RECOVERABLE_FORWARD_IMPLEMENTATION_ERROR_MESSAGE_1 : JSString :=
  jstr "could not send email: Unknown error: transient error"

/-- The test of the default
`RECOVERABLE_FORWARD_IMPLEMENTATION_ERROR_REGEXP`, which is the escaped
message anchored at the start: an error message matches exactly when it
starts with `RECOVERABLE_FORWARD_IMPLEMENTATION_ERROR_MESSAGE_1`. -/
def recoverableForwardImplementationErrorTest (message : JSString) : Bool :=
  RECOVERABLE_FORWARD_IMPLEMENTATION_ERROR_MESSAGE_1.isPrefixOf message

namespace CX

/-- A recoverable delivery error (its message matches the default
recoverable-error pattern). -/
def errA : JsError := { id := 1, message := RECOVERABLE_FORWARD_IMPLEMENTATION_ERROR_MESSAGE_1 }

/-- An unrecoverable delivery error: its message matches neither the
unverified-destination message nor the recoverable-error pattern. -/
def errB : JsError := { id := 2, message := jstr "SMTP 550 mailbox unavailable" }

/-- A delivery error carrying exactly the unverified-destination message. -/
def errU : JsError := { id := 3, message := UNVERIFIED_DESTINATION_ERROR_MESSAGE }

/-- A second recoverable delivery error. -/
def errR : JsError := { id := 4, message := RECOVERABLE_FORWARD_IMPLEMENTATION_ERROR_MESSAGE_1 }

/-- A delivery oracle: `a@x.com` fails recoverably, `b@x.com` fails
unrecoverably, `u@x.com` fails with the unverified-destination message,
`r@x.com` fails recoverably, and every other address succeeds. -/
def deliver : Deliver := fun d =>
  if d = jstr "a@x.com" then .error errA
  else if d = jstr "b@x.com" then .error errB
  else if d = jstr "u@x.com" then .error errU
  else if d = jstr "r@x.com" then .error errR
  else .ok ()

/-- A redundant destination whose first address fails recoverably and whose
second (and last) address fails unrecoverably. -/
def groupAB : List JSString := [jstr "a@x.com", jstr "b@x.com"]

end CX

namespace FailoverVariant

/-! ### The destination validators of `src/unnamed/part_002` -/

/-- The `{ valid, invalid }` accumulator of `validateFailoverDestination`. -/
structure ValidatedFailoverDestination where
  valid : List JSString
  invalid : List JSString
deriving DecidableEq, Repr

/-- `validateFailoverDestination` (`src/unnamed/part_002` 393-409): split the
group text on the failover separator; for each candidate remove all
whitespace and prepend the message user when the candidate starts with the
local-part separator or `'@'`; record valid candidates under `valid` and
non-empty invalid candidates under `invalid` (empty candidates are silently
dropped). -/
def validateFailoverDestination (isValidEmailAddress : JSString → Bool)
    (messageUser : JSString) (formatFailoverSeparator formatLocalPartSeparator : Char)
    (failoverDestinationText : JSString) : ValidatedFailoverDestination :=
  (splitOnChar formatFailoverSeparator failoverDestinationText).foldl
    (fun acc candidate =>
      let destination := prependUserIfLocalOrAt messageUser formatLocalPartSeparator
        (removeWhitespaceList candidate)
      if isValidEmailAddress destination then
        { acc with valid := acc.valid ++ [destination] }
      else if destination.isEmpty then acc
      else { acc with invalid := acc.invalid ++ [destination] })
    { valid := [], invalid := [] }

/-- The four-field accumulator of `validateDestination`. -/
structure ValidatedFailoverDestinations where
  validFailover : List (List JSString)
  validOrdinary : List JSString
  invalidOrdinary : List JSString
  duplicateOrdinary : List JSString
deriving DecidableEq, Repr

/-- The inner reduce of `validateDestination` (`src/unnamed/part_002`
415-424): a candidate not yet present in the running `validOrdinary` list is
appended both there and to the group being built; an already-present
candidate is recorded under `duplicateOrdinary` and dropped from the
group. -/
def dedupeStep (acc : ValidatedFailoverDestinations × List JSString) (destination : JSString) :
    ValidatedFailoverDestinations × List JSString :=
  if destination ∈ acc.1.validOrdinary then
    ({ acc.1 with duplicateOrdinary := acc.1.duplicateOrdinary ++ [destination] }, acc.2)
  else
    ({ acc.1 with validOrdinary := acc.1.validOrdinary ++ [destination] },
      acc.2 ++ [destination])

/-- One step of the outer reduce of `validateDestination`
(`src/unnamed/part_002` 411-429): validate one group text, dedupe its valid
candidates against every address accepted so far, append the deduped group
to `validFailover` when it is non-empty.  The source's
`invalidOrdinary.concat(...)` builds a new array and discards it, so
`invalidOrdinary` is left unchanged. -/
def validateDestinationStep (isValidEmailAddress : JSString → Bool) (messageUser : JSString)
    (formatFailoverSeparator formatLocalPartSeparator : Char)
    (st : ValidatedFailoverDestinations) (failoverDestinationText : JSString) :
    ValidatedFailoverDestinations :=
  let nonDeduped := validateFailoverDestination isValidEmailAddress messageUser
    formatFailoverSeparator formatLocalPartSeparator failoverDestinationText
  let r := nonDeduped.valid.foldl dedupeStep (st, [])
  if 0 < r.2.length then
    { r.1 with validFailover := r.1.validFailover ++ [r.2] }
  else r.1

/-- `validateDestination` (`src/unnamed/part_002` 410-432): split the
destination text on the address separator and fold the step above over the
group texts. -/
def validateDestination (isValidEmailAddress : JSString → Bool) (messageUser : JSString)
    (formatAddressSeparator formatFailoverSeparator formatLocalPartSeparator : Char)
    (destinationText : JSString) : ValidatedFailoverDestinations :=
  (splitOnChar formatAddressSeparator destinationText).foldl
    (validateDestinationStep isValidEmailAddress messageUser formatFailoverSeparator
      formatLocalPartSeparator)
    { validFailover := [], validOrdinary := [], invalidOrdinary := [], duplicateOrdinary := [] }

end FailoverVariant

namespace WorkerJS

/-! ### The destination validators of `src/worker.js` -/

/-- The `{ validSimple, invalidSimple }` accumulator of
`validateRedundantDestination`. -/
structure ValidatedRedundantDestination where
  validSimple : List JSString
  invalidSimple : List JSString
deriving DecidableEq, Repr

/-- `validateRedundantDestination` (`src/worker.js` 420-436): like the
failover variant but candidates are trimmed rather than stripped of all
whitespace. -/
def validateRedundantDestination (isValidEmailAddress : JSString → Bool)
    (messageUser : JSString) (formatSimpleAddressSeparator formatLocalPartSeparator : Char)
    (redundantDestinationText : JSString) : ValidatedRedundantDestination :=
  (splitOnChar formatSimpleAddressSeparator redundantDestinationText).foldl
    (fun acc basicDestination =>
      let simpleDestination := prependUserIfLocalOrAt messageUser formatLocalPartSeparator
        (trimList basicDestination)
      if isValidEmailAddress simpleDestination then
        { acc with validSimple := acc.validSimple ++ [simpleDestination] }
      else if simpleDestination.isEmpty then acc
      else { acc with invalidSimple := acc.invalidSimple ++ [simpleDestination] })
    { validSimple := [], invalidSimple := [] }

/-- The four-field accumulator of `validateMultiDestination`. -/
structure ValidatedMultiDestination where
  validRedundant : List (List JSString)
  validSimple : List JSString
  invalidSimple : List JSString
  duplicateSimple : List JSString
deriving DecidableEq, Repr

/-- The inner reduce of `validateMultiDestination` (`src/worker.js`
442-451). -/
def multiDedupeStep (acc : ValidatedMultiDestination × List JSString) (destination : JSString) :
    ValidatedMultiDestination × List JSString :=
  if destination ∈ acc.1.validSimple then
    ({ acc.1 with duplicateSimple := acc.1.duplicateSimple ++ [destination] }, acc.2)
  else
    ({ acc.1 with validSimple := acc.1.validSimple ++ [destination] },
      acc.2 ++ [destination])

/-- One step of the outer reduce of `validateMultiDestination`
(`src/worker.js` 437-459); as in the failover variant the source's
`invalidSimple.concat(...)` result is discarded, leaving `invalidSimple`
unchanged. -/
def validateMultiDestinationStep (isValidEmailAddress : JSString → Bool)
    (messageUser : JSString) (formatSimpleAddressSeparator formatLocalPartSeparator : Char)
    (st : ValidatedMultiDestination) (redundantDestinationText : JSString) :
    ValidatedMultiDestination :=
  let nonDeduped := validateRedundantDestination isValidEmailAddress messageUser
    formatSimpleAddressSeparator formatLocalPartSeparator redundantDestinationText
  let r := nonDeduped.validSimple.foldl multiDedupeStep (st, [])
  if 0 < r.2.length then
    { r.1 with validRedundant := r.1.validRedundant ++ [r.2] }
  else r.1

/-- `validateMultiDestination` (`src/worker.js` 437-459). -/
def validateMultiDestination (isValidEmailAddress : JSString → Bool) (messageUser : JSString)
    (formatRedundantAddressSeparator formatSimpleAddressSeparator formatLocalPartSeparator : Char)
    (multiDestinationText : JSString) : ValidatedMultiDestination :=
  (splitOnChar formatRedundantAddressSeparator multiDestinationText).foldl
    (validateMultiDestinationStep isValidEmailAddress messageUser formatSimpleAddressSeparator
      formatLocalPartSeparator)
    { validRedundant := [], validSimple := [], invalidSimple := [], duplicateSimple := [] }

/-! ### The `email` handler of `src/worker.js` -/

/-- The environment-configurable values consumed by `email`, with the
`DEFAULTS` of `src/worker.js` as default field values (the object spread
`{ ...DEFAULTS, ...environment }`).  The format separators are modelled as
single characters, as in the shipped defaults. -/
structure Environment where
  USE_STORED_ADDRESS_CONFIGURATION : JSString := jstr "true"
  USE_STORED_USER_CONFIGURATION : JSString := jstr "true"
  DESTINATION : JSString := jstr ""
  REJECT_TREATMENT : JSString := jstr ": Invalid recipient"
  SUBADDRESSES : JSString := jstr "*"
  USERS : JSString := jstr ""
  FORMAT_REDUNDANT_ADDRESS_SEPARATOR : Char := ','
  FORMAT_SIMPLE_ADDRESS_SEPARATOR : Char := ':'
  FORMAT_LOCAL_PART_SEPARATOR : Char := '+'
  FORMAT_REJECT_SEPARATOR : Char := ';'

/-- The Cloudflare KV store, `MAP`: an async get-by-key lookup returning
`null` for an absent key.  `none` models both the JavaScript `null` and the
`undefined` it is coalesced to; a stored empty string is `some []`. -/
abbrev KVMap := JSString → Option JSString

/-- `DEFAULTS.REJECT_TREATMENT` of `src/worker.js`. -/
def DEFAULTS_REJECT_TREATMENT : JSString := jstr ": Invalid recipient"

/-- `booleanFromString` (`src/worker.js` 331-334). -/
def booleanFromString (stringBoolean : JSString) : Bool :=
  toLowerList (trimList stringBoolean) == jstr "true"
  || toLowerList (trimList stringBoolean) == jstr "1"

/-- `storedConfigurationValue` (`src/worker.js` 335-341): look the key up
only when the category's load flag is set; the source's `?? undefined`
coalesces the JavaScript `null` of a store miss to `undefined`, which are
both `none` here, and leaves a stored empty string (`some []`) unchanged. -/
def storedConfigurationValue (shouldLoad : Bool) (map : KVMap) (key : JSString) :
    Option JSString :=
  if shouldLoad then map key else none

/-- `useStoredAddressGlobalConfiguration` (`src/worker.js` 346-347). -/
def useStoredAddressGlobalConfiguration (env : Environment) : Bool :=
  booleanFromString env.USE_STORED_ADDRESS_CONFIGURATION

/-- `useStoredUserConfiguration` (`src/worker.js` 348-349). -/
def useStoredUserConfiguration (env : Environment) : Bool :=
  booleanFromString env.USE_STORED_USER_CONFIGURATION

/-- `globalDestination` (`src/worker.js` 354-358). -/
def globalDestination (env : Environment) (map : KVMap) : JSString :=
  trimList ((storedConfigurationValue (useStoredAddressGlobalConfiguration env) map
    (jstr "@DESTINATION")).getD env.DESTINATION)

/-- `globalRejectTreatment` (`src/worker.js` 359-363). -/
def globalRejectTreatment (env : Environment) (map : KVMap) : JSString :=
  trimList ((storedConfigurationValue (useStoredAddressGlobalConfiguration env) map
    (jstr "@REJECT_TREATMENT")).getD env.REJECT_TREATMENT)

/-- `globalSubaddresses` (`src/worker.js` 364-368). -/
def globalSubaddresses (env : Environment) (map : KVMap) : JSString :=
  toLowerList (trimList ((storedConfigurationValue (useStoredAddressGlobalConfiguration env) map
    (jstr "@SUBADDRESSES")).getD env.SUBADDRESSES))

/-- `globalUsers` (`src/worker.js` 369-373). -/
def globalUsers (env : Environment) (map : KVMap) : JSString :=
  toLowerList (trimList ((storedConfigurationValue (useStoredAddressGlobalConfiguration env) map
    (jstr "@USERS")).getD env.USERS))

/-- `DEFAULTS.addressLocalParts` (`src/worker.js` 146-156): lowercase the
local part and split it at the first occurrence of the local-part separator;
without a separator the subaddress is empty. -/
def addressLocalParts (localPart : JSString) (formatLocalPartSeparator : Char) :
    JSString × JSString :=
  let lowerCaseLocalPart := toLowerList localPart
  match splitOnChar formatLocalPartSeparator lowerCaseLocalPart with
  | [] => (lowerCaseLocalPart, [])
  | user :: rest => (user, List.intercalate [formatLocalPartSeparator] rest)

/-- `messageLocalPart` (`src/worker.js` 493): `message.to.split('@')[0]`. -/
def messageLocalPart (msgTo : JSString) : JSString :=
  (splitOnChar '@' msgTo).headD []

/-- The `messageUser` component of `src/worker.js` 494. -/
def messageUser (env : Environment) (msgTo : JSString) : JSString :=
  (addressLocalParts (messageLocalPart msgTo) env.FORMAT_LOCAL_PART_SEPARATOR).1

/-- The `messageSubaddress` component of `src/worker.js` 494. -/
def messageSubaddress (env : Environment) (msgTo : JSString) : JSString :=
  (addressLocalParts (messageLocalPart msgTo) env.FORMAT_LOCAL_PART_SEPARATOR).2

/-- `userDestinationWithRejectTreatment` (`src/worker.js` 502-503): the
stored per-user value, looked up by the message user as key. -/
def userDestinationWithRejectTreatment (env : Environment) (map : KVMap) (msgTo : JSString) :
    Option JSString :=
  storedConfigurationValue (useStoredUserConfiguration env) map (messageUser env msgTo)

/-- `userSubaddresses` (`src/worker.js` 507-512): the stored per-user
subaddress policy under the `user+` key, trimmed and lowercased when
present; the `??` falls back to the global policy only for an absent key,
never for a stored empty string. -/
def userSubaddresses (env : Environment) (map : KVMap) (msgTo : JSString) : JSString :=
  ((storedConfigurationValue (useStoredUserConfiguration env) map
      (messageUser env msgTo ++ [env.FORMAT_LOCAL_PART_SEPARATOR])).map
    (fun v => toLowerList (trimList v))).getD (globalSubaddresses env map)

/-- `userRequiresSubaddress` (`src/worker.js` 513). -/
def userRequiresSubaddress (env : Environment) (map : KVMap) (msgTo : JSString) : Bool :=
  startsWithChar env.FORMAT_LOCAL_PART_SEPARATOR (userSubaddresses env map msgTo)

/-- `userConcreteSubaddresses` (`src/worker.js` 514): the policy with the
anchored leading local-part separator removed. -/
def userConcreteSubaddresses (env : Environment) (map : KVMap) (msgTo : JSString) : JSString :=
  if startsWithChar env.FORMAT_LOCAL_PART_SEPARATOR (userSubaddresses env map msgTo) then
    (userSubaddresses env map msgTo).drop 1
  else userSubaddresses env map msgTo

/-- `userDestination` (`src/worker.js` 524-526): the trimmed segment of the
stored user value before the reject separator, overridden by the global
destination when it is empty (`''` is falsy, so `'' || x` is `x`) or when no
user value was stored. -/
def userDestination (env : Environment) (map : KVMap) (msgTo : JSString) : JSString :=
  match userDestinationWithRejectTreatment env map msgTo with
  | none => globalDestination env map
  | some v =>
    let d := trimList ((splitOnChar env.FORMAT_REJECT_SEPARATOR v).headD [])
    if d.isEmpty then globalDestination env map else d

/-- `userRejectTreatment` (`src/worker.js` 527-529): the trimmed segment of
the stored user value after the reject separator, overridden by the global
reject treatment when absent or empty. -/
def userRejectTreatment (env : Environment) (map : KVMap) (msgTo : JSString) : JSString :=
  match userDestinationWithRejectTreatment env map msgTo with
  | none => globalRejectTreatment env map
  | some v =>
    match (splitOnChar env.FORMAT_REJECT_SEPARATOR v).get? 1 with
    | none => globalRejectTreatment env map
    | some t => if (trimList t).isEmpty then globalRejectTreatment env map else trimList t

/-- `messageUserIsAllowed` (`src/worker.js` 535-539). -/
def messageUserIsAllowed (env : Environment) (map : KVMap) (msgTo : JSString) : Bool :=
  (userDestinationWithRejectTreatment env map msgTo).isSome
  || globalUsers env map == jstr "*"
  || ((splitOnChar env.FORMAT_REDUNDANT_ADDRESS_SEPARATOR (globalUsers env map)).map
      trimList).contains (messageUser env msgTo)

/-- `messageSubaddressIsAllowed` (`src/worker.js` 545-550). -/
def messageSubaddressIsAllowed (env : Environment) (map : KVMap) (msgTo : JSString) : Bool :=
  if (messageSubaddress env msgTo).isEmpty then !userRequiresSubaddress env map msgTo
  else
    userConcreteSubaddresses env map msgTo == jstr "*"
    || ((splitOnChar env.FORMAT_REDUNDANT_ADDRESS_SEPARATOR
        (userConcreteSubaddresses env map msgTo)).map trimList).contains (messageSubaddress env msgTo)

/-- `userRejectReason` (`src/worker.js` 596-600): the JavaScript chain
`!a.includes('@') && a || ...` selects the first candidate that does not
contain `'@'` and is non-empty (an empty string is falsy and falls
through); the environment candidate is tested untrimmed and used
trimmed. -/
def userRejectReason (env : Environment) (map : KVMap) (msgTo : JSString) : JSString :=
  let u := userRejectTreatment env map msgTo
  let g := globalRejectTreatment env map
  if !u.contains '@' && !u.isEmpty then u
  else if !g.contains '@' && !g.isEmpty then g
  else if !env.REJECT_TREATMENT.contains '@' && !(trimList env.REJECT_TREATMENT).isEmpty then
    trimList env.REJECT_TREATMENT
  else trimList DEFAULTS_REJECT_TREATMENT

/-- `fullRejectReason` (`src/worker.js` 603-606): the chosen reason with the
message's full local part prepended when the reason starts with a
non-alphanumeric character. -/
def fullRejectReason (env : Environment) (map : KVMap) (msgTo : JSString) : JSString :=
  prependLocalPartIfNonAlphanumeric (messageLocalPart msgTo) (userRejectReason env map msgTo)

/-- The reject reason as the specification sentence behind claim C9 reads:
the first of user-specific, global, environment and built-in default
reject treatments that is not itself an email address (modelled, as in the
code, as not containing `'@'`), with no requirement that the candidate be
non-empty; the local part is prepended under the same non-alphanumeric
rule.  This definition follows the claim's words and exists only to be
compared against `fullRejectReason`. -/
def specFullRejectReason (env : Environment) (map : KVMap) (msgTo : JSString) : JSString :=
  let u := userRejectTreatment env map msgTo
  let g := globalRejectTreatment env map
  let chosen :=
    if !u.contains '@' then u
    else if !g.contains '@' then g
    else if !env.REJECT_TREATMENT.contains '@' then trimList env.REJECT_TREATMENT
    else trimList DEFAULTS_REJECT_TREATMENT
  prependLocalPartIfNonAlphanumeric (messageLocalPart msgTo) chosen

/-- The observable outcome of one `email` invocation: which phases were
attempted and with which validated destinations, whether a reject reason
was passed to `message.setReject`, and whether the invocation threw. -/
structure EmailOutcome where
  acceptAttempted : Bool
  acceptDestinations : List (List JSString)
  acceptForwardWasSuccessful : Bool
  rejectForwardAttempted : Bool
  rejectDestinations : List (List JSString)
  rejectForwardWasSuccessful : Bool
  directRejectReason : Option JSString
  thrown : Option RecoverableForwardError
deriving DecidableEq, Repr

/-- The `acceptMultiDestination` of `src/worker.js` 555-556. -/
def acceptMultiDestination (env : Environment) (map : KVMap) (isValidEmailAddress : JSString → Bool)
    (msgTo : JSString) : ValidatedMultiDestination :=
  validateMultiDestination isValidEmailAddress (messageUser env msgTo)
    env.FORMAT_REDUNDANT_ADDRESS_SEPARATOR env.FORMAT_SIMPLE_ADDRESS_SEPARATOR
    env.FORMAT_LOCAL_PART_SEPARATOR (userDestination env map msgTo)

/-- The `rejectMultiDestination` of `src/worker.js` 577-578. -/
def rejectMultiDestination (env : Environment) (map : KVMap) (isValidEmailAddress : JSString → Bool)
    (msgTo : JSString) : ValidatedMultiDestination :=
  validateMultiDestination isValidEmailAddress (messageUser env msgTo)
    env.FORMAT_REDUNDANT_ADDRESS_SEPARATOR env.FORMAT_SIMPLE_ADDRESS_SEPARATOR
    env.FORMAT_LOCAL_PART_SEPARATOR (userRejectTreatment env map msgTo)

/-- The reject-forward and direct-reject phases of `email` (`src/worker.js`
576-614), entered when the accept forward failed or was not attempted. -/
def emailRejectPhase (env : Environment) (map : KVMap) (isValidEmailAddress : JSString → Bool)
    (isRecoverable : JSString → Bool) (deliver : Deliver) (msgTo : JSString)
    (acceptAttempted : Bool) (acceptDestinations : List (List JSString)) : EmailOutcome :=
  let rm := rejectMultiDestination env map isValidEmailAddress msgTo
  if 0 < rm.validRedundant.length then
    match forwardToMultiDestination deliver isRecoverable rm.validRedundant with
    | .error err =>
      { acceptAttempted := acceptAttempted, acceptDestinations := acceptDestinations
        acceptForwardWasSuccessful := false, rejectForwardAttempted := true
        rejectDestinations := rm.validRedundant, rejectForwardWasSuccessful := false
        directRejectReason := none, thrown := some err }
    | .ok ok =>
      if ok then
        { acceptAttempted := acceptAttempted, acceptDestinations := acceptDestinations
          acceptForwardWasSuccessful := false, rejectForwardAttempted := true
          rejectDestinations := rm.validRedundant, rejectForwardWasSuccessful := true
          directRejectReason := none, thrown := none }
      else
        { acceptAttempted := acceptAttempted, acceptDestinations := acceptDestinations
          acceptForwardWasSuccessful := false, rejectForwardAttempted := true
          rejectDestinations := rm.validRedundant, rejectForwardWasSuccessful := false
          directRejectReason := some (fullRejectReason env map msgTo), thrown := none }
  else
    { acceptAttempted := acceptAttempted, acceptDestinations := acceptDestinations
      acceptForwardWasSuccessful := false, rejectForwardAttempted := false
      rejectDestinations := [], rejectForwardWasSuccessful := false
      directRejectReason := some (fullRejectReason env map msgTo), thrown := none }

/-- The `email` handler of `src/worker.js` 292-615: when the message user
and subaddress are allowed, attempt the accept forward (a throw of the
forwarding engine propagates out of the handler, recorded in `thrown`);
otherwise, or when the accept forward was unsuccessful, run the
reject-forward and direct-reject phases. -/
def email (env : Environment) (map : KVMap) (isValidEmailAddress : JSString → Bool)
    (isRecoverable : JSString → Bool) (deliver : Deliver) (msgTo : JSString) : EmailOutcome :=
  if messageUserIsAllowed env map msgTo && messageSubaddressIsAllowed env map msgTo then
    let am := acceptMultiDestination env map isValidEmailAddress msgTo
    match forwardToMultiDestination deliver isRecoverable am.validRedundant with
    | .error err =>
      { acceptAttempted := true, acceptDestinations := am.validRedundant
        acceptForwardWasSuccessful := false, rejectForwardAttempted := false
        rejectDestinations := [], rejectForwardWasSuccessful := false
        directRejectReason := none, thrown := some err }
    | .ok ok =>
      if ok then
        { acceptAttempted := true, acceptDestinations := am.validRedundant
          acceptForwardWasSuccessful := true, rejectForwardAttempted := false
          rejectDestinations := [], rejectForwardWasSuccessful := false
          directRejectReason := none, thrown := none }
      else
        emailRejectPhase env map isValidEmailAddress isRecoverable deliver msgTo true
          am.validRedundant
  else
    emailRejectPhase env map isValidEmailAddress isRecoverable deliver msgTo false []

end WorkerJS

namespace CX

/-! ### Concrete configurations for counterexamples and witnesses -/

/-- A sample validity check standing for the configurable email-address
pattern: accepts exactly the two well-formed addresses used in the
scenarios below. -/
def isValidSample (s : JSString) : Bool :=
  s == jstr "a@b.c" || s == jstr "fallback@x.com"

/-- Scenario for claim C4: the KV store maps `user1` to `";Custom reason"`
(empty destination segment, non-empty reject treatment). -/
def map4 : WorkerJS.KVMap := fun k =>
  if k = jstr "user1" then some (jstr ";Custom reason") else none

/-- Scenario for claim C4: the environment provides a global destination. -/
def env4 : WorkerJS.Environment := { DESTINATION := jstr "fallback@x.com" }

/-- Scenario for claim C5: the KV store maps the `user1+` subaddress key to
the empty string (explicitly no subaddresses). -/
def map5 : WorkerJS.KVMap := fun k =>
  if k = jstr "user1+" then some [] else if k = jstr "user1" then some (jstr "d@x.com") else none

/-- Scenario for claim C5: the default environment. -/
def env5 : WorkerJS.Environment := {}

/-- Scenario for claim C9: the KV store maps `@REJECT_TREATMENT` to the
empty string while the environment supplies `"Nope"`. -/
def map9 : WorkerJS.KVMap := fun k =>
  if k = jstr "@REJECT_TREATMENT" then some [] else none

/-- Scenario for claim C9: an environment-level reject treatment that is
non-empty and not an address. -/
def env9 : WorkerJS.Environment := { REJECT_TREATMENT := jstr "Nope" }

end CX


/-! ### Helper lemmas about the `src/worker.js` engine -/

theorem hadRecoverableError_eq_any (deliver : Deliver) (isRecoverable : JSString → Bool)
    (group : List JSString) :
    (WorkerJS.forwardToRedundantDestination deliver isRecoverable group).hadRecoverableError
      = (WorkerJS.forwardToRedundantDestination deliver isRecoverable group).errors.any
          (fun e => isRecoverable e.message) := by
  induction group with
  | nil => rfl
  | cons d rest ih =>
    cases hd : deliver d with
    | ok u => simp [WorkerJS.forwardToRedundantDestination, hd]
    | error e => simp [WorkerJS.forwardToRedundantDestination, hd, ih]

theorem errors_ne_nil_of_failed (deliver : Deliver) (isRecoverable : JSString → Bool)
    (group : List JSString) (hne : group ≠ [])
    (hfail : (WorkerJS.forwardToRedundantDestination deliver isRecoverable group).wasSuccessful
      = false) :
    (WorkerJS.forwardToRedundantDestination deliver isRecoverable group).errors ≠ [] := by
  cases group with
  | nil => exact absurd rfl hne
  | cons d rest =>
    cases hd : deliver d with
    | ok u => simp [WorkerJS.forwardToRedundantDestination, hd] at hfail
    | error e => simp [WorkerJS.forwardToRedundantDestination, hd]

theorem deliver_ok_of_successfulDestination (deliver : Deliver)
    (isRecoverable : JSString → Bool) (group : List JSString) (d : JSString)
    (h : (WorkerJS.forwardToRedundantDestination deliver isRecoverable group).successfulDestination
      = some d) :
    deliver d = .ok () := by
  induction group with
  | nil => simp [WorkerJS.forwardToRedundantDestination] at h
  | cons a rest ih =>
    simp only [WorkerJS.forwardToRedundantDestination] at h
    cases ha : deliver a with
    | ok u =>
      rw [ha] at h
      simp only [Option.some.injEq] at h
      subst h
      cases u
      exact ha
    | error e =>
      rw [ha] at h
      exact ih h

/-! ### Claim 1 -/

/-- Claim C1, counterexample.  The claim states that whenever at least one
group ends with an unrecoverable failure (one matching neither the
unverified-destination message nor the recoverable-error pattern), the
whole-spec forwarding operation does not throw.  Here the single redundant
destination fails, its last failure is unrecoverable in exactly that sense,
and yet `forwardToMultiDestination` throws the aggregate
`RecoverableForwardError` (because an earlier failure in the same group
matched the recoverable pattern). -/
theorem claim1_counterexample :
    (WorkerJS.forwardToRedundantDestination CX.deliver
        recoverableForwardImplementationErrorTest CX.groupAB).wasSuccessful = false
    ∧ (WorkerJS.forwardToRedundantDestination CX.deliver
        recoverableForwardImplementationErrorTest CX.groupAB).errors.getLast? = some CX.errB
    ∧ recoverableForwardImplementationErrorTest CX.errB.message = false
    ∧ CX.errB.message ≠ UNVERIFIED_DESTINATION_ERROR_MESSAGE
    ∧ WorkerJS.forwardToMultiDestination CX.deliver
        recoverableForwardImplementationErrorTest [CX.groupAB]
        = .error { errors := [CX.errA, CX.errB] } := by
  decide

/-- Claim C1, amended.  For `forwardToMultiDestination` on a non-empty list
of destination groups in which at least one group fails with none of its
failures matching the recoverable-error pattern (in particular when its only
failures are unrecoverable), the call does not throw: it resolves reporting
overall unsuccess, and the successful-destination list it computes contains
only addresses the delivery primitive accepted, so the caller falls through
to the next policy phase. -/
theorem claim1_amended (deliver : Deliver) (isRecoverable : JSString → Bool)
    (groups : List (List JSString)) (_hne : groups ≠ [])
    (hbad : ∃ g ∈ groups,
      (WorkerJS.forwardToRedundantDestination deliver isRecoverable g).wasSuccessful = false
      ∧ ∀ e ∈ (WorkerJS.forwardToRedundantDestination deliver isRecoverable g).errors,
          isRecoverable e.message = false) :
    WorkerJS.forwardToMultiDestination deliver isRecoverable groups = .ok false
    ∧ ∀ d ∈ WorkerJS.successfulDestinations deliver isRecoverable groups,
        deliver d = .ok () := by
  obtain ⟨g, hg, hfail, hallrec⟩ := hbad
  have hrec : (WorkerJS.forwardToRedundantDestination deliver isRecoverable g).hadRecoverableError
      = false := by
    rw [hadRecoverableError_eq_any]
    simp only [List.any_eq_false]
    intro e he
    simp [hallrec e he]
  have hmem : WorkerJS.forwardToRedundantDestination deliver isRecoverable g
      ∈ WorkerJS.multiResults deliver isRecoverable groups :=
    List.mem_map_of_mem _ hg
  have hallws : (WorkerJS.multiResults deliver isRecoverable groups).all
      (fun r => r.wasSuccessful) = false := by
    simp only [List.all_eq_false]
    exact ⟨_, hmem, by simp [hfail]⟩
  have hallok : (WorkerJS.multiResults deliver isRecoverable groups).all
      (fun r => r.wasSuccessful || r.hadRecoverableError) = false := by
    simp only [List.all_eq_false]
    exact ⟨_, hmem, by simp [hfail, hrec]⟩
  constructor
  · simp only [WorkerJS.forwardToMultiDestination]
    rw [hallws, hallok]
    simp
  · intro d hd
    simp only [WorkerJS.successfulDestinations, List.mem_filterMap] at hd
    obtain ⟨r, hr, hrd⟩ := hd
    simp only [WorkerJS.multiResults, List.mem_map] at hr
    obtain ⟨g', _, rfl⟩ := hr
    exact deliver_ok_of_successfulDestination deliver isRecoverable g' d hrd

/-- Witness for claim C1 (amended): a concrete two-group spec where the
first group fails unrecoverably and the second succeeds; the call resolves
with overall unsuccess. -/
theorem claim1_amended_witness :
    WorkerJS.forwardToMultiDestination CX.deliver recoverableForwardImplementationErrorTest
        [[jstr "b@x.com"], [jstr "ok@x.com"]] = .ok false
    ∧ ∀ d ∈ WorkerJS.successfulDestinations CX.deliver
        recoverableForwardImplementationErrorTest [[jstr "b@x.com"], [jstr "ok@x.com"]],
        CX.deliver d = .ok () :=
  claim1_amended CX.deliver recoverableForwardImplementationErrorTest
    [[jstr "b@x.com"], [jstr "ok@x.com"]] (by decide)
    ⟨[jstr "b@x.com"], by decide, by decide, by decide⟩

/-! ### Claim 2 -/

/-- Claim C2, counterexample.  The claim states that when at least one group
delivers to no address and every failure across all groups is recoverable or
carries the unverified-destination message, the call throws the structured
aggregate error.  Here the single group's only failure carries exactly the
unverified-destination message, yet `forwardToMultiDestination` does not
throw: it resolves with overall unsuccess (in `src/worker.js` the
unverified-destination message has no special status, so this failure counts
as unrecoverable). -/
theorem claim2_counterexample :
    (WorkerJS.forwardToRedundantDestination CX.deliver
        recoverableForwardImplementationErrorTest [jstr "u@x.com"]).wasSuccessful = false
    ∧ (WorkerJS.forwardToRedundantDestination CX.deliver
        recoverableForwardImplementationErrorTest [jstr "u@x.com"]).errors = [CX.errU]
    ∧ CX.errU.message = UNVERIFIED_DESTINATION_ERROR_MESSAGE
    ∧ WorkerJS.forwardToMultiDestination CX.deliver
        recoverableForwardImplementationErrorTest [[jstr "u@x.com"]] = .ok false := by
  decide

/-- Claim C2, amended.  For `forwardToMultiDestination` on a non-empty list
of non-empty destination groups where at least one group delivers to no
address and every failure across all groups matches the recoverable-error
pattern, the call throws the structured aggregate `RecoverableForwardError`,
signalling the upstream transport to retry delivery of the whole message. -/
theorem claim2_amended (deliver : Deliver) (isRecoverable : JSString → Bool)
    (groups : List (List JSString)) (hgne : ∀ g ∈ groups, g ≠ [])
    (hfail : ∃ g ∈ groups,
      (WorkerJS.forwardToRedundantDestination deliver isRecoverable g).wasSuccessful = false)
    (hrec : ∀ g ∈ groups,
      ∀ e ∈ (WorkerJS.forwardToRedundantDestination deliver isRecoverable g).errors,
        isRecoverable e.message = true) :
    ∃ E, WorkerJS.forwardToMultiDestination deliver isRecoverable groups = .error E := by
  obtain ⟨g, hg, hgfail⟩ := hfail
  have hne : groups ≠ [] := by
    intro h
    subst h
    exact absurd hg (List.not_mem_nil g)
  have hlen : decide (0 < groups.length) = true := by
    simp [List.length_pos, hne]
  have hallws : (WorkerJS.multiResults deliver isRecoverable groups).all
      (fun r => r.wasSuccessful) = false := by
    simp only [List.all_eq_false]
    exact ⟨_, List.mem_map_of_mem _ hg, by simp [hgfail]⟩
  have hallok : (WorkerJS.multiResults deliver isRecoverable groups).all
      (fun r => r.wasSuccessful || r.hadRecoverableError) = true := by
    simp only [List.all_eq_true]
    intro r hr
    simp only [WorkerJS.multiResults, List.mem_map] at hr
    obtain ⟨g', hg', rfl⟩ := hr
    cases hws : (WorkerJS.forwardToRedundantDestination deliver isRecoverable g').wasSuccessful
    case true => simp [hws]
    case false =>
      have herr := errors_ne_nil_of_failed deliver isRecoverable g' (hgne g' hg') hws
      have hhadrec : (WorkerJS.forwardToRedundantDestination deliver isRecoverable
          g').hadRecoverableError = true := by
        rw [hadRecoverableError_eq_any]
        cases he : (WorkerJS.forwardToRedundantDestination deliver isRecoverable g').errors with
        | nil => exact absurd he herr
        | cons e es =>
          simp only [List.any_cons, Bool.or_eq_true]
          exact Or.inl (hrec g' hg' e (by rw [he]; exact List.mem_cons_self e es))
      simp [hws, hhadrec]
  refine ⟨{ errors :=
    ((WorkerJS.multiResults deliver isRecoverable groups).map (fun r => r.errors)).flatten }, ?_⟩
  simp only [WorkerJS.forwardToMultiDestination]
  rw [hallws, hallok, hlen]
  simp

/-- Witness for claim C2 (amended): a single group whose single address
fails with a message matching the recoverable-error pattern; the aggregate
error is thrown. -/
theorem claim2_amended_witness :
    ∃ E, WorkerJS.forwardToMultiDestination CX.deliver
        recoverableForwardImplementationErrorTest [[jstr "r@x.com"]] = .error E :=
  claim2_amended CX.deliver recoverableForwardImplementationErrorTest [[jstr "r@x.com"]]
    (by decide) ⟨[jstr "r@x.com"], by decide, by decide⟩ (by decide)

/-! ### Claim 3 -/

/-- Claim C3, counterexample.  The claim states that for exactly one group
containing exactly one address whose delivery fails other than acceptably,
the whole-spec forwarding operation rethrows the very error unchanged.  In
`src/worker.js` (`forwardToMultiDestination`, the variant with no
single-address special case) the same call does not throw at all: it
resolves with overall unsuccess, so in particular the original error is not
rethrown. -/
theorem claim3_counterexample :
    CX.deliver (jstr "b@x.com") = .error CX.errB
    ∧ recoverableForwardImplementationErrorTest CX.errB.message = false
    ∧ WorkerJS.forwardToMultiDestination CX.deliver
        recoverableForwardImplementationErrorTest [[jstr "b@x.com"]] = .ok false := by
  decide

/-- Claim C3, amended.  In the failover variant (`DEFAULTS.forward` of
`src/unnamed/part_002`), for exactly one destination group containing
exactly one address whose delivery fails with an error other than the
unverified-destination message (so the group does not count as acceptably
failed), the very error object thrown by the delivery primitive is rethrown
unchanged, not wrapped in the aggregate error. -/
theorem claim3_amended (deliver : Deliver) (unverifiedMessage : JSString)
    (d : JSString) (e : JsError) (hd : deliver d = .error e)
    (hmsg : e.message ≠ unverifiedMessage) :
    FailoverVariant.forward deliver unverifiedMessage [[d]]
      = .error (.original (some e)) := by
  simp [FailoverVariant.forward, FailoverVariant.forwardResults,
    FailoverVariant.forwardFailoverDestination, FailoverVariant.forwardFailoverDestinationLoop,
    hd, hmsg]

/-- Witness for claim C3 (amended): the concrete unrecoverable failure on a
one-group/one-address spec is rethrown as the original error object. -/
theorem claim3_amended_witness :
    FailoverVariant.forward CX.deliver UNVERIFIED_DESTINATION_ERROR_MESSAGE
        [[jstr "b@x.com"]] = .error (.original (some CX.errB)) :=
  claim3_amended CX.deliver UNVERIFIED_DESTINATION_ERROR_MESSAGE (jstr "b@x.com") CX.errB
    (by decide) (by decide)

/-! ### Claim 10 -/

/-- Claim C10.  For every delivery oracle and configuration, calling the
whole-spec forwarding operation of either variant on an empty list of
destination groups never invokes the delivery primitive (the attempted
address list is empty), throws no exception, and reports zero successful
addresses (`forwardToMultiDestination` resolves to overall unsuccess and
computes an empty successful-destination list; `forward` resolves to the
empty list), so the invoking phase counts as unsuccessful and the flow falls
through to the next phase. -/
theorem claim10_theorem (deliver : Deliver) (isRecoverable : JSString → Bool)
    (unverifiedMessage : JSString) :
    WorkerJS.forwardToMultiDestination deliver isRecoverable [] = .ok false
    ∧ WorkerJS.multiAttempted deliver isRecoverable [] = []
    ∧ WorkerJS.successfulDestinations deliver isRecoverable [] = []
    ∧ FailoverVariant.forward deliver unverifiedMessage [] = .ok []
    ∧ FailoverVariant.forwardAttempted deliver unverifiedMessage [] = [] :=
  ⟨rfl, rfl, rfl, rfl, rfl⟩

/-! ### Helper lemmas about the destination validators -/

theorem dedupeStep_foldl_fixed (cs : List JSString)
    (st : FailoverVariant.ValidatedFailoverDestinations) (g : List JSString) :
    (cs.foldl FailoverVariant.dedupeStep (st, g)).1.validFailover = st.validFailover
    ∧ (cs.foldl FailoverVariant.dedupeStep (st, g)).1.invalidOrdinary = st.invalidOrdinary := by
  induction cs generalizing st g with
  | nil => exact ⟨rfl, rfl⟩
  | cons d cs ih =>
    by_cases hd : d ∈ st.validOrdinary
    · simpa [FailoverVariant.dedupeStep, hd] using ih _ g
    · simpa [FailoverVariant.dedupeStep, hd] using ih _ (g ++ [d])

theorem dedupeStep_foldl_validOrdinary (cs : List JSString)
    (st : FailoverVariant.ValidatedFailoverDestinations) (g : List JSString) :
    ∃ t, (cs.foldl FailoverVariant.dedupeStep (st, g)).2 = g ++ t
      ∧ (cs.foldl FailoverVariant.dedupeStep (st, g)).1.validOrdinary
          = st.validOrdinary ++ t := by
  induction cs generalizing st g with
  | nil => exact ⟨[], by simp, by simp⟩
  | cons d cs ih =>
    by_cases hd : d ∈ st.validOrdinary
    · simp only [List.foldl_cons, FailoverVariant.dedupeStep, if_pos hd]
      exact ih _ g
    · simp only [List.foldl_cons, FailoverVariant.dedupeStep, if_neg hd]
      obtain ⟨t, h2, h1⟩ :=
        ih { st with validOrdinary := st.validOrdinary ++ [d] } (g ++ [d])
      exact ⟨d :: t, by simpa [List.append_assoc] using h2,
        by simpa [List.append_assoc] using h1⟩

theorem dedupeStep_foldl_nodup (cs : List JSString)
    (st : FailoverVariant.ValidatedFailoverDestinations) (g : List JSString)
    (h : st.validOrdinary.Nodup) :
    ((cs.foldl FailoverVariant.dedupeStep (st, g)).1.validOrdinary).Nodup := by
  induction cs generalizing st g with
  | nil => exact h
  | cons d cs ih =>
    by_cases hd : d ∈ st.validOrdinary
    · simp only [List.foldl_cons, FailoverVariant.dedupeStep, if_pos hd]
      exact ih _ g h
    · simp only [List.foldl_cons, FailoverVariant.dedupeStep, if_neg hd]
      apply ih
      simp [List.nodup_append, h, hd]

theorem validateDestinationStep_foldl_inv (isValidEmailAddress : JSString → Bool)
    (messageUser : JSString) (formatFailoverSeparator formatLocalPartSeparator : Char)
    (ts : List JSString) (st : FailoverVariant.ValidatedFailoverDestinations)
    (hjoin : st.validFailover.flatten = st.validOrdinary)
    (hnodup : st.validOrdinary.Nodup)
    (hne : st.validFailover.contains [] = false) :
    ((ts.foldl (FailoverVariant.validateDestinationStep isValidEmailAddress messageUser
        formatFailoverSeparator formatLocalPartSeparator) st).validFailover).flatten
      = (ts.foldl (FailoverVariant.validateDestinationStep isValidEmailAddress messageUser
        formatFailoverSeparator formatLocalPartSeparator) st).validOrdinary
    ∧ ((ts.foldl (FailoverVariant.validateDestinationStep isValidEmailAddress messageUser
        formatFailoverSeparator formatLocalPartSeparator) st).validOrdinary).Nodup
    ∧ ((ts.foldl (FailoverVariant.validateDestinationStep isValidEmailAddress messageUser
        formatFailoverSeparator formatLocalPartSeparator) st).validFailover).contains []
        = false := by
  induction ts generalizing st with
  | nil => exact ⟨hjoin, hnodup, hne⟩
  | cons t ts ih =>
    simp only [List.foldl_cons]
    set cs := (FailoverVariant.validateFailoverDestination isValidEmailAddress messageUser
      formatFailoverSeparator formatLocalPartSeparator t).valid with hcs
    have hfix := dedupeStep_foldl_fixed cs st []
    obtain ⟨tt, hg, hvo⟩ := dedupeStep_foldl_validOrdinary cs st []
    have hnd := dedupeStep_foldl_nodup cs st [] hnodup
    simp only [List.nil_append] at hg
    by_cases hlen : 0 < (cs.foldl FailoverVariant.dedupeStep (st, [])).2.length
    · have hstep : FailoverVariant.validateDestinationStep isValidEmailAddress messageUser
          formatFailoverSeparator formatLocalPartSeparator st t
          = { (cs.foldl FailoverVariant.dedupeStep (st, [])).1 with
              validFailover := (cs.foldl FailoverVariant.dedupeStep (st, [])).1.validFailover
                ++ [(cs.foldl FailoverVariant.dedupeStep (st, [])).2] } := by
        simp only [FailoverVariant.validateDestinationStep, ← hcs, if_pos hlen]
      rw [hstep]
      apply ih
      · simp only [List.flatten_append, hfix.1, hjoin, hvo, hg, List.flatten_cons,
          List.flatten_nil, List.append_nil]
      · exact hnd
      · have httne : tt ≠ [] := by
          intro hc
          rw [hg, hc] at hlen
          simp at hlen
        have hne' : [] ∉ st.validFailover := by simpa using hne
        simp [hfix.1, hne', hg, httne]
    · have hstep : FailoverVariant.validateDestinationStep isValidEmailAddress messageUser
          formatFailoverSeparator formatLocalPartSeparator st t
          = (cs.foldl FailoverVariant.dedupeStep (st, [])).1 := by
        simp only [FailoverVariant.validateDestinationStep, ← hcs, if_neg hlen]
      rw [hstep]
      have httnil : tt = [] := by
        rw [hg] at hlen
        simpa using List.eq_nil_of_length_eq_zero (Nat.eq_zero_of_not_pos hlen)
      apply ih
      · rw [hfix.1, hjoin, hvo, httnil, List.append_nil]
      · exact hnd
      · rw [hfix.1]
        exact hne

theorem validateDestinationStep_invalidOrdinary (isValidEmailAddress : JSString → Bool)
    (messageUser : JSString) (formatFailoverSeparator formatLocalPartSeparator : Char)
    (st : FailoverVariant.ValidatedFailoverDestinations) (t : JSString) :
    (FailoverVariant.validateDestinationStep isValidEmailAddress messageUser
        formatFailoverSeparator formatLocalPartSeparator st t).invalidOrdinary
      = st.invalidOrdinary := by
  have hfix := dedupeStep_foldl_fixed (FailoverVariant.validateFailoverDestination
    isValidEmailAddress messageUser formatFailoverSeparator formatLocalPartSeparator t).valid
    st []
  by_cases hlen : 0 < ((FailoverVariant.validateFailoverDestination isValidEmailAddress
      messageUser formatFailoverSeparator formatLocalPartSeparator t).valid.foldl
      FailoverVariant.dedupeStep (st, [])).2.length
  · simp only [FailoverVariant.validateDestinationStep, if_pos hlen]
    exact hfix.2
  · simp only [FailoverVariant.validateDestinationStep, if_neg hlen]
    exact hfix.2

theorem validateDestination_invalidOrdinary (isValidEmailAddress : JSString → Bool)
    (messageUser : JSString)
    (formatAddressSeparator formatFailoverSeparator formatLocalPartSeparator : Char)
    (destinationText : JSString) :
    (FailoverVariant.validateDestination isValidEmailAddress messageUser
        formatAddressSeparator formatFailoverSeparator formatLocalPartSeparator
        destinationText).invalidOrdinary = [] := by
  unfold FailoverVariant.validateDestination
  generalize splitOnChar formatAddressSeparator destinationText = ts
  suffices h : ∀ (st : FailoverVariant.ValidatedFailoverDestinations),
      (ts.foldl (FailoverVariant.validateDestinationStep isValidEmailAddress messageUser
        formatFailoverSeparator formatLocalPartSeparator) st).invalidOrdinary
      = st.invalidOrdinary by
    exact h _
  induction ts with
  | nil => intro st; rfl
  | cons t ts ih =>
    intro st
    simp only [List.foldl_cons]
    rw [ih]
    exact validateDestinationStep_invalidOrdinary isValidEmailAddress messageUser
      formatFailoverSeparator formatLocalPartSeparator st t

/-! ### Claim 6 -/

/-- Claim C6.  For every validity predicate (standing for the configurable
email-address pattern), message user, separators and destination
specification text, the valid destination-groups returned by
`validateDestination` contain no empty group, and no address appears more
than once across all returned groups taken together. -/
theorem claim6_theorem (isValidEmailAddress : JSString → Bool) (messageUser : JSString)
    (formatAddressSeparator formatFailoverSeparator formatLocalPartSeparator : Char)
    (destinationText : JSString) :
    (FailoverVariant.validateDestination isValidEmailAddress messageUser
        formatAddressSeparator formatFailoverSeparator formatLocalPartSeparator
        destinationText).validFailover.contains [] = false
    ∧ ((FailoverVariant.validateDestination isValidEmailAddress messageUser
        formatAddressSeparator formatFailoverSeparator formatLocalPartSeparator
        destinationText).validFailover.flatten).Nodup := by
  unfold FailoverVariant.validateDestination
  have h := validateDestinationStep_foldl_inv isValidEmailAddress messageUser
    formatFailoverSeparator formatLocalPartSeparator
    (splitOnChar formatAddressSeparator destinationText)
    { validFailover := [], validOrdinary := [], invalidOrdinary := [], duplicateOrdinary := [] }
    rfl List.nodup_nil rfl
  exact ⟨h.2.2, by rw [h.1]; exact h.2.1⟩

/-- Witness for claim C6 at a concrete spec containing duplicates, an
invalid candidate and whitespace. -/
theorem claim6_witness :
    (FailoverVariant.validateDestination CX.isValidSample (jstr "user1")
        ',' ':' '+' (jstr "a@b.c:bad@, a@b.c")).validFailover.contains [] = false
    ∧ ((FailoverVariant.validateDestination CX.isValidSample (jstr "user1")
        ',' ':' '+' (jstr "a@b.c:bad@, a@b.c")).validFailover.flatten).Nodup :=
  claim6_theorem CX.isValidSample (jstr "user1") ',' ':' '+' (jstr "a@b.c:bad@, a@b.c")

/-! ### Claim 7 -/

/-- Claim C7.  The group-level validator does record the non-empty invalid
candidate (`bad@`) and silently drops the empty candidate, as the claim
says; but the whole-parse result that the warning routine
`warnAboutBadDestinations` reads has an always-empty `invalidOrdinary`,
because the source discards the result of
`newFailoverDestinations.invalidOrdinary.concat(...)`
(`Array.prototype.concat` does not mutate), so invalid destinations are
never reported: the last conjunct holds for every input. -/
theorem claim7_theorem :
    (FailoverVariant.validateFailoverDestination CX.isValidSample (jstr "user1") ':' '+'
        (jstr "bad@::a@b.c")).invalid = [jstr "bad@"]
    ∧ (FailoverVariant.validateFailoverDestination CX.isValidSample (jstr "user1") ':' '+'
        (jstr "bad@::a@b.c")).valid = [jstr "a@b.c"]
    ∧ ∀ (isValidEmailAddress : JSString → Bool) (messageUser : JSString)
        (formatAddressSeparator formatFailoverSeparator formatLocalPartSeparator : Char)
        (destinationText : JSString),
        (FailoverVariant.validateDestination isValidEmailAddress messageUser
          formatAddressSeparator formatFailoverSeparator formatLocalPartSeparator
          destinationText).invalidOrdinary = [] :=
  ⟨by decide, by decide, validateDestination_invalidOrdinary⟩

/-! ### Claim 4 -/

/-- Claim C4, counterexample.  The KV store maps `user1` to
`";Custom reason"`: the segment before the reject separator is empty while a
non-empty reject treatment is present.  The claim states the accept phase
then uses no destination at all.  In the code the empty destination segment
is falsy, so `'' || globalDestination` falls through to the global
destination even though a reject treatment is present: the accept phase runs
with the global destination and here even succeeds. -/
theorem claim4_counterexample :
    CX.map4 (jstr "user1") = some (jstr ";Custom reason")
    ∧ WorkerJS.userDestination CX.env4 CX.map4 (jstr "user1@d.com")
        = WorkerJS.globalDestination CX.env4 CX.map4
    ∧ WorkerJS.globalDestination CX.env4 CX.map4 = jstr "fallback@x.com"
    ∧ (WorkerJS.email CX.env4 CX.map4 CX.isValidSample (fun _ => false)
        (fun _ => Except.ok ()) (jstr "user1@d.com")).acceptDestinations
        = [[jstr "fallback@x.com"]]
    ∧ (WorkerJS.email CX.env4 CX.map4 CX.isValidSample (fun _ => false)
        (fun _ => Except.ok ()) (jstr "user1@d.com")).acceptForwardWasSuccessful = true := by
  decide

/-- Claim C4, amended.  When the stored user value's segment before the
reject separator is empty after trimming, the effective accept destination
falls through to the global destination whether or not a reject-treatment
segment is present; a non-empty reject-treatment segment still overrides the
reject treatment. -/
theorem claim4_amended (env : WorkerJS.Environment) (map : WorkerJS.KVMap) (msgTo v : JSString)
    (hstored : WorkerJS.userDestinationWithRejectTreatment env map msgTo = some v)
    (hempty : trimList ((splitOnChar env.FORMAT_REJECT_SEPARATOR v).headD []) = []) :
    WorkerJS.userDestination env map msgTo = WorkerJS.globalDestination env map
    ∧ ∀ t, (splitOnChar env.FORMAT_REJECT_SEPARATOR v).get? 1 = some t →
        trimList t ≠ [] →
        WorkerJS.userRejectTreatment env map msgTo = trimList t := by
  constructor
  · have h : WorkerJS.userDestination env map msgTo
        = if (trimList ((splitOnChar env.FORMAT_REJECT_SEPARATOR v).headD [])).isEmpty
          then WorkerJS.globalDestination env map
          else trimList ((splitOnChar env.FORMAT_REJECT_SEPARATOR v).headD []) := by
      simp only [WorkerJS.userDestination, hstored]
    rw [h, hempty]
    simp
  · intro t ht htne
    simp only [List.get?_eq_getElem?] at ht
    simp [WorkerJS.userRejectTreatment, hstored, ht, htne]

/-- Witness for claim C4 (amended) at the `";Custom reason"` scenario. -/
theorem claim4_amended_witness :
    WorkerJS.userDestination CX.env4 CX.map4 (jstr "user1@d.com")
      = WorkerJS.globalDestination CX.env4 CX.map4
    ∧ ∀ t, (splitOnChar CX.env4.FORMAT_REJECT_SEPARATOR (jstr ";Custom reason")).get? 1
          = some t →
        trimList t ≠ [] →
        WorkerJS.userRejectTreatment CX.env4 CX.map4 (jstr "user1@d.com") = trimList t :=
  claim4_amended CX.env4 CX.map4 (jstr "user1@d.com") (jstr ";Custom reason")
    (by decide) (by decide)

/-! ### Claim 5 -/

/-- Claim C5.  With stored user configuration in use: a stored per-user
subaddress policy equal to the empty string is preserved as the effective
subaddress policy (so any subaddressed message to that user is not
admitted), while an absent key — the KV get returning `null`, coalesced to
`undefined`, both `none` here — falls back to the global subaddress
policy; an empty-string result is never coalesced to the global value. -/
theorem claim5_theorem (env : WorkerJS.Environment) (map : WorkerJS.KVMap) (msgTo : JSString)
    (huse : WorkerJS.useStoredUserConfiguration env = true) :
    (map (WorkerJS.messageUser env msgTo ++ [env.FORMAT_LOCAL_PART_SEPARATOR]) = some [] →
      WorkerJS.userSubaddresses env map msgTo = []
      ∧ (WorkerJS.messageSubaddress env msgTo ≠ [] →
          WorkerJS.messageSubaddressIsAllowed env map msgTo = false))
    ∧ (map (WorkerJS.messageUser env msgTo ++ [env.FORMAT_LOCAL_PART_SEPARATOR]) = none →
      WorkerJS.userSubaddresses env map msgTo = WorkerJS.globalSubaddresses env map) := by
  constructor
  · intro hsome
    have hsub : WorkerJS.userSubaddresses env map msgTo = [] := by
      simp [WorkerJS.userSubaddresses, WorkerJS.storedConfigurationValue, huse, hsome,
        trimList, toLowerList]
    refine ⟨hsub, ?_⟩
    intro hne
    have hconc : WorkerJS.userConcreteSubaddresses env map msgTo = [] := by
      simp [WorkerJS.userConcreteSubaddresses, hsub, startsWithChar]
    simp [WorkerJS.messageSubaddressIsAllowed, hconc, hne, splitOnChar, trimList]
    decide
  · intro hnone
    simp [WorkerJS.userSubaddresses, WorkerJS.storedConfigurationValue, huse, hnone]

/-- Witness for claim C5: the store maps `user1+` to the empty string, the
message carries subaddress `tag`, and the theorem's conclusions hold at this
input. -/
theorem claim5_witness :
    (CX.map5 (WorkerJS.messageUser CX.env5 (jstr "user1+tag@d.com")
        ++ [CX.env5.FORMAT_LOCAL_PART_SEPARATOR]) = some [] →
      WorkerJS.userSubaddresses CX.env5 CX.map5 (jstr "user1+tag@d.com") = []
      ∧ (WorkerJS.messageSubaddress CX.env5 (jstr "user1+tag@d.com") ≠ [] →
          WorkerJS.messageSubaddressIsAllowed CX.env5 CX.map5 (jstr "user1+tag@d.com") = false))
    ∧ (CX.map5 (WorkerJS.messageUser CX.env5 (jstr "user1+tag@d.com")
        ++ [CX.env5.FORMAT_LOCAL_PART_SEPARATOR]) = none →
      WorkerJS.userSubaddresses CX.env5 CX.map5 (jstr "user1+tag@d.com")
        = WorkerJS.globalSubaddresses CX.env5 CX.map5) :=
  claim5_theorem CX.env5 CX.map5 (jstr "user1+tag@d.com") (by decide)

/-! ### Helper lemmas about the `email` flow -/

theorem emailRejectPhase_fields (env : WorkerJS.Environment) (map : WorkerJS.KVMap)
    (isValidEmailAddress isRecoverable : JSString → Bool) (deliver : Deliver) (msgTo : JSString)
    (aA : Bool) (aD : List (List JSString)) :
    (WorkerJS.emailRejectPhase env map isValidEmailAddress isRecoverable deliver msgTo
        aA aD).acceptAttempted = aA
    ∧ (WorkerJS.emailRejectPhase env map isValidEmailAddress isRecoverable deliver msgTo
        aA aD).acceptDestinations = aD
    ∧ ((WorkerJS.emailRejectPhase env map isValidEmailAddress isRecoverable deliver msgTo
          aA aD).rejectForwardAttempted = true
        ∨ ((WorkerJS.emailRejectPhase env map isValidEmailAddress isRecoverable deliver msgTo
          aA aD).directRejectReason).isSome = true) := by
  by_cases hl : 0 < (WorkerJS.rejectMultiDestination env map isValidEmailAddress
      msgTo).validRedundant.length
  · cases hf : WorkerJS.forwardToMultiDestination deliver isRecoverable
        (WorkerJS.rejectMultiDestination env map isValidEmailAddress msgTo).validRedundant with
    | error err => simp [WorkerJS.emailRejectPhase, hl, hf]
    | ok ok =>
      cases ok
      · simp [WorkerJS.emailRejectPhase, hl, hf]
      · simp [WorkerJS.emailRejectPhase, hl, hf]
  · simp [WorkerJS.emailRejectPhase, hl]

theorem email_acceptAttempted (env : WorkerJS.Environment) (map : WorkerJS.KVMap)
    (isValidEmailAddress isRecoverable : JSString → Bool) (deliver : Deliver)
    (msgTo : JSString) :
    (WorkerJS.email env map isValidEmailAddress isRecoverable deliver msgTo).acceptAttempted
      = (WorkerJS.messageUserIsAllowed env map msgTo
          && WorkerJS.messageSubaddressIsAllowed env map msgTo) := by
  by_cases hc : (WorkerJS.messageUserIsAllowed env map msgTo
      && WorkerJS.messageSubaddressIsAllowed env map msgTo) = true
  · cases hf : WorkerJS.forwardToMultiDestination deliver isRecoverable
        (WorkerJS.acceptMultiDestination env map isValidEmailAddress msgTo).validRedundant with
    | error err => simp [WorkerJS.email, hc, hf]
    | ok ok =>
      cases ok
      · simp [WorkerJS.email, hc, hf,
          (emailRejectPhase_fields env map isValidEmailAddress isRecoverable deliver msgTo
            true (WorkerJS.acceptMultiDestination env map isValidEmailAddress
              msgTo).validRedundant).1]
      · simp [WorkerJS.email, hc, hf]
  · have hc' : (WorkerJS.messageUserIsAllowed env map msgTo
        && WorkerJS.messageSubaddressIsAllowed env map msgTo) = false := by
      revert hc
      cases WorkerJS.messageUserIsAllowed env map msgTo
        && WorkerJS.messageSubaddressIsAllowed env map msgTo <;> simp
    rw [hc']
    simp [WorkerJS.email, hc',
      (emailRejectPhase_fields env map isValidEmailAddress isRecoverable deliver msgTo
        false []).1]

theorem messageUserIsAllowed_iff (env : WorkerJS.Environment) (map : WorkerJS.KVMap)
    (msgTo : JSString) :
    WorkerJS.messageUserIsAllowed env map msgTo = true
      ↔ ((WorkerJS.userDestinationWithRejectTreatment env map msgTo).isSome = true
          ∨ WorkerJS.globalUsers env map = jstr "*"
          ∨ WorkerJS.messageUser env msgTo
              ∈ (splitOnChar env.FORMAT_REDUNDANT_ADDRESS_SEPARATOR
                  (WorkerJS.globalUsers env map)).map trimList) := by
  simp [WorkerJS.messageUserIsAllowed, or_assoc]

theorem messageSubaddressIsAllowed_iff (env : WorkerJS.Environment) (map : WorkerJS.KVMap)
    (msgTo : JSString) :
    WorkerJS.messageSubaddressIsAllowed env map msgTo = true
      ↔ (if WorkerJS.messageSubaddress env msgTo = []
          then WorkerJS.userRequiresSubaddress env map msgTo = false
          else WorkerJS.userConcreteSubaddresses env map msgTo = jstr "*"
            ∨ WorkerJS.messageSubaddress env msgTo
                ∈ (splitOnChar env.FORMAT_REDUNDANT_ADDRESS_SEPARATOR
                    (WorkerJS.userConcreteSubaddresses env map msgTo)).map trimList) := by
  by_cases hs : WorkerJS.messageSubaddress env msgTo = []
  · simp [WorkerJS.messageSubaddressIsAllowed, hs, Bool.not_eq_true']
  · simp [WorkerJS.messageSubaddressIsAllowed, hs, List.isEmpty_iff]

/-! ### Claim 8 -/

/-- Claim C8.  The accept-forward phase is attempted exactly when both
admission checks pass: the user is admitted (its KV user key was found, or
the global users policy is `*`, or the user appears literally in the global
users list), and the subaddress is admitted (no subaddress and the resolved
policy does not start with the local-part separator, or a subaddress and the
policy with the leading separator removed is `*` or lists it literally).
When either check fails, no accept destinations are computed and the flow
proceeds to the reject phases (a reject forward is attempted or a direct
reject reason is issued). -/
theorem claim8_theorem (env : WorkerJS.Environment) (map : WorkerJS.KVMap)
    (isValidEmailAddress isRecoverable : JSString → Bool) (deliver : Deliver)
    (msgTo : JSString) :
    ((WorkerJS.email env map isValidEmailAddress isRecoverable deliver msgTo).acceptAttempted
        = true
      ↔ (((WorkerJS.userDestinationWithRejectTreatment env map msgTo).isSome = true
            ∨ WorkerJS.globalUsers env map = jstr "*"
            ∨ WorkerJS.messageUser env msgTo
                ∈ (splitOnChar env.FORMAT_REDUNDANT_ADDRESS_SEPARATOR
                    (WorkerJS.globalUsers env map)).map trimList)
          ∧ (if WorkerJS.messageSubaddress env msgTo = []
              then WorkerJS.userRequiresSubaddress env map msgTo = false
              else WorkerJS.userConcreteSubaddresses env map msgTo = jstr "*"
                ∨ WorkerJS.messageSubaddress env msgTo
                    ∈ (splitOnChar env.FORMAT_REDUNDANT_ADDRESS_SEPARATOR
                        (WorkerJS.userConcreteSubaddresses env map msgTo)).map trimList)))
    ∧ ((WorkerJS.email env map isValidEmailAddress isRecoverable deliver msgTo).acceptAttempted
          = false →
        (WorkerJS.email env map isValidEmailAddress isRecoverable deliver
            msgTo).acceptDestinations = []
        ∧ ((WorkerJS.email env map isValidEmailAddress isRecoverable deliver
              msgTo).rejectForwardAttempted = true
            ∨ ((WorkerJS.email env map isValidEmailAddress isRecoverable deliver
              msgTo).directRejectReason).isSome = true)) := by
  have hAcc := email_acceptAttempted env map isValidEmailAddress isRecoverable deliver msgTo
  constructor
  · rw [hAcc, Bool.and_eq_true]
    exact and_congr (messageUserIsAllowed_iff env map msgTo)
      (messageSubaddressIsAllowed_iff env map msgTo)
  · intro hfalse
    rw [hAcc] at hfalse
    have hemail : WorkerJS.email env map isValidEmailAddress isRecoverable deliver msgTo
        = WorkerJS.emailRejectPhase env map isValidEmailAddress isRecoverable deliver msgTo
            false [] := by
      simp [WorkerJS.email, hfalse]
    rw [hemail]
    have hf := emailRejectPhase_fields env map isValidEmailAddress isRecoverable deliver msgTo
      false []
    exact ⟨hf.2.1, hf.2.2⟩

/-- Witness for claim C8 at the concrete C4 scenario (user admitted via its
stored key, no subaddress). -/
theorem claim8_witness :
    ((WorkerJS.email CX.env4 CX.map4 CX.isValidSample (fun _ => false)
        (fun _ => Except.ok ()) (jstr "user1@d.com")).acceptAttempted = true
      ↔ (((WorkerJS.userDestinationWithRejectTreatment CX.env4 CX.map4
            (jstr "user1@d.com")).isSome = true
            ∨ WorkerJS.globalUsers CX.env4 CX.map4 = jstr "*"
            ∨ WorkerJS.messageUser CX.env4 (jstr "user1@d.com")
                ∈ (splitOnChar CX.env4.FORMAT_REDUNDANT_ADDRESS_SEPARATOR
                    (WorkerJS.globalUsers CX.env4 CX.map4)).map trimList)
          ∧ (if WorkerJS.messageSubaddress CX.env4 (jstr "user1@d.com") = []
              then WorkerJS.userRequiresSubaddress CX.env4 CX.map4 (jstr "user1@d.com") = false
              else WorkerJS.userConcreteSubaddresses CX.env4 CX.map4 (jstr "user1@d.com")
                  = jstr "*"
                ∨ WorkerJS.messageSubaddress CX.env4 (jstr "user1@d.com")
                    ∈ (splitOnChar CX.env4.FORMAT_REDUNDANT_ADDRESS_SEPARATOR
                        (WorkerJS.userConcreteSubaddresses CX.env4 CX.map4
                          (jstr "user1@d.com"))).map trimList)))
    ∧ ((WorkerJS.email CX.env4 CX.map4 CX.isValidSample (fun _ => false)
          (fun _ => Except.ok ()) (jstr "user1@d.com")).acceptAttempted = false →
        (WorkerJS.email CX.env4 CX.map4 CX.isValidSample (fun _ => false)
            (fun _ => Except.ok ()) (jstr "user1@d.com")).acceptDestinations = []
        ∧ ((WorkerJS.email CX.env4 CX.map4 CX.isValidSample (fun _ => false)
              (fun _ => Except.ok ()) (jstr "user1@d.com")).rejectForwardAttempted = true
            ∨ ((WorkerJS.email CX.env4 CX.map4 CX.isValidSample (fun _ => false)
              (fun _ => Except.ok ()) (jstr "user1@d.com")).directRejectReason).isSome
              = true)) :=
  claim8_theorem CX.env4 CX.map4 CX.isValidSample (fun _ => false)
    (fun _ => Except.ok ()) (jstr "user1@d.com")

theorem emailRejectPhase_directRejectReason (env : WorkerJS.Environment)
    (map : WorkerJS.KVMap) (isValidEmailAddress isRecoverable : JSString → Bool)
    (deliver : Deliver) (msgTo : JSString) (aA : Bool) (aD : List (List JSString))
    (r : JSString)
    (h : (WorkerJS.emailRejectPhase env map isValidEmailAddress isRecoverable deliver msgTo
        aA aD).directRejectReason = some r) :
    r = WorkerJS.fullRejectReason env map msgTo := by
  by_cases hl : 0 < (WorkerJS.rejectMultiDestination env map isValidEmailAddress
      msgTo).validRedundant.length
  · cases hf : WorkerJS.forwardToMultiDestination deliver isRecoverable
        (WorkerJS.rejectMultiDestination env map isValidEmailAddress msgTo).validRedundant with
    | error err => simp [WorkerJS.emailRejectPhase, hl, hf] at h
    | ok ok =>
      cases ok
      · simp [WorkerJS.emailRejectPhase, hl, hf] at h
        exact h.symm
      · simp [WorkerJS.emailRejectPhase, hl, hf] at h
  · simp [WorkerJS.emailRejectPhase, hl] at h
    exact h.symm

theorem email_directRejectReason (env : WorkerJS.Environment) (map : WorkerJS.KVMap)
    (isValidEmailAddress isRecoverable : JSString → Bool) (deliver : Deliver)
    (msgTo : JSString) (r : JSString)
    (h : (WorkerJS.email env map isValidEmailAddress isRecoverable deliver
        msgTo).directRejectReason = some r) :
    r = WorkerJS.fullRejectReason env map msgTo := by
  by_cases hc : (WorkerJS.messageUserIsAllowed env map msgTo
      && WorkerJS.messageSubaddressIsAllowed env map msgTo) = true
  · cases hf : WorkerJS.forwardToMultiDestination deliver isRecoverable
        (WorkerJS.acceptMultiDestination env map isValidEmailAddress msgTo).validRedundant with
    | error err => simp [WorkerJS.email, hc, hf] at h
    | ok ok =>
      cases ok
      · have hemail : WorkerJS.email env map isValidEmailAddress isRecoverable deliver msgTo
            = WorkerJS.emailRejectPhase env map isValidEmailAddress isRecoverable deliver msgTo
                true (WorkerJS.acceptMultiDestination env map isValidEmailAddress
                  msgTo).validRedundant := by
          simp [WorkerJS.email, hc, hf]
        rw [hemail] at h
        exact emailRejectPhase_directRejectReason env map isValidEmailAddress isRecoverable
          deliver msgTo true _ r h
      · simp [WorkerJS.email, hc, hf] at h
  · have hc' : (WorkerJS.messageUserIsAllowed env map msgTo
        && WorkerJS.messageSubaddressIsAllowed env map msgTo) = false := by
      revert hc
      cases WorkerJS.messageUserIsAllowed env map msgTo
        && WorkerJS.messageSubaddressIsAllowed env map msgTo <;> simp
    have hemail : WorkerJS.email env map isValidEmailAddress isRecoverable deliver msgTo
        = WorkerJS.emailRejectPhase env map isValidEmailAddress isRecoverable deliver msgTo
            false [] := by
      simp [WorkerJS.email, hc']
    rw [hemail] at h
    exact emailRejectPhase_directRejectReason env map isValidEmailAddress isRecoverable
      deliver msgTo false [] r h

theorem fullRejectReason_spec (env : WorkerJS.Environment) (map : WorkerJS.KVMap)
    (msgTo : JSString) :
    WorkerJS.fullRejectReason env map msgTo
      = prependLocalPartIfNonAlphanumeric (WorkerJS.messageLocalPart msgTo)
        (if (WorkerJS.userRejectTreatment env map msgTo).contains '@' = false
            ∧ WorkerJS.userRejectTreatment env map msgTo ≠ [] then
          WorkerJS.userRejectTreatment env map msgTo
        else if (WorkerJS.globalRejectTreatment env map).contains '@' = false
            ∧ WorkerJS.globalRejectTreatment env map ≠ [] then
          WorkerJS.globalRejectTreatment env map
        else if env.REJECT_TREATMENT.contains '@' = false
            ∧ trimList env.REJECT_TREATMENT ≠ [] then
          trimList env.REJECT_TREATMENT
        else trimList WorkerJS.DEFAULTS_REJECT_TREATMENT) := by
  simp only [WorkerJS.fullRejectReason, WorkerJS.userRejectReason]
  congr 1
  split_ifs <;>
    simp_all [Bool.and_eq_true, Bool.not_eq_true', List.isEmpty_iff]

/-! ### Claim 9 -/

/-- Claim C9, counterexample.  The KV store maps `@REJECT_TREATMENT` to the
empty string and the environment supplies `"Nope"`.  The claim states the
reject primitive receives the first of (user, global, environment, default)
reject treatments that is not itself an email address; here the user and
global treatments are the empty string, which contains no `'@'` and so is
not an email address, so the claim predicts the empty reason.  The code
skips empty candidates (they are falsy in the `&&`/`||` chain) and rejects
with `"Nope"` instead. -/
theorem claim9_counterexample :
    (WorkerJS.email CX.env9 CX.map9 (fun _ => false) (fun _ => false)
        (fun _ => Except.ok ()) (jstr "user1@d.com")).directRejectReason = some (jstr "Nope")
    ∧ WorkerJS.userRejectTreatment CX.env9 CX.map9 (jstr "user1@d.com") = []
    ∧ (WorkerJS.userRejectTreatment CX.env9 CX.map9 (jstr "user1@d.com")).contains '@' = false
    ∧ WorkerJS.specFullRejectReason CX.env9 CX.map9 (jstr "user1@d.com") = []
    ∧ jstr "Nope" ≠ ([] : JSString) := by
  decide

/-- Claim C9, amended.  Whenever the flow reaches the direct reject, the
reason passed to the reject primitive equals the first of (user-specific,
global, environment-trimmed, built-in default) reject treatments that is
non-empty and does not contain `'@'` (the code's notion of "not itself an
email address"), with the message's full local part prepended exactly when
that chosen reason starts with a non-alphanumeric character. -/
theorem claim9_amended (env : WorkerJS.Environment) (map : WorkerJS.KVMap)
    (isValidEmailAddress isRecoverable : JSString → Bool) (deliver : Deliver)
    (msgTo : JSString) (r : JSString)
    (h : (WorkerJS.email env map isValidEmailAddress isRecoverable deliver
        msgTo).directRejectReason = some r) :
    r = prependLocalPartIfNonAlphanumeric (WorkerJS.messageLocalPart msgTo)
        (if (WorkerJS.userRejectTreatment env map msgTo).contains '@' = false
            ∧ WorkerJS.userRejectTreatment env map msgTo ≠ [] then
          WorkerJS.userRejectTreatment env map msgTo
        else if (WorkerJS.globalRejectTreatment env map).contains '@' = false
            ∧ WorkerJS.globalRejectTreatment env map ≠ [] then
          WorkerJS.globalRejectTreatment env map
        else if env.REJECT_TREATMENT.contains '@' = false
            ∧ trimList env.REJECT_TREATMENT ≠ [] then
          trimList env.REJECT_TREATMENT
        else trimList WorkerJS.DEFAULTS_REJECT_TREATMENT) :=
  (email_directRejectReason env map isValidEmailAddress isRecoverable deliver msgTo r h).trans
    (fullRejectReason_spec env map msgTo)

/-- Witness for claim C9 (amended) at the counterexample scenario: the
issued reason `"Nope"` is the first non-empty candidate without `'@'`. -/
theorem claim9_amended_witness :
    jstr "Nope" = prependLocalPartIfNonAlphanumeric
        (WorkerJS.messageLocalPart (jstr "user1@d.com"))
        (if (WorkerJS.userRejectTreatment CX.env9 CX.map9 (jstr "user1@d.com")).contains '@'
              = false
            ∧ WorkerJS.userRejectTreatment CX.env9 CX.map9 (jstr "user1@d.com") ≠ [] then
          WorkerJS.userRejectTreatment CX.env9 CX.map9 (jstr "user1@d.com")
        else if (WorkerJS.globalRejectTreatment CX.env9 CX.map9).contains '@' = false
            ∧ WorkerJS.globalRejectTreatment CX.env9 CX.map9 ≠ [] then
          WorkerJS.globalRejectTreatment CX.env9 CX.map9
        else if CX.env9.REJECT_TREATMENT.contains '@' = false
            ∧ trimList CX.env9.REJECT_TREATMENT ≠ [] then
          trimList CX.env9.REJECT_TREATMENT
        else trimList WorkerJS.DEFAULTS_REJECT_TREATMENT) :=
  claim9_amended CX.env9 CX.map9 (fun _ => false) (fun _ => false) (fun _ => Except.ok ())
    (jstr "user1@d.com") (jstr "Nope") (by decide)
